import Mathlib

/-!
Verification of the facility ranking and filtering logic of
`src/components/TriageMapRouter.jsx`.

Numbers computed by the JavaScript code are modeled as exact rationals; the
trigonometric distance function is modeled over the real numbers. Optional
JavaScript object properties are modeled as `Option` fields, and JavaScript
falsiness of numbers and strings is modeled explicitly where the code relies
on it.
-/

namespace TriageRouter

/-- Search radius in meters chosen from the triage urgency, mirroring
`getSearchRadius` (TriageMapRouter.jsx lines 20-26). The switch on the
urgency string is modeled as an equality chain. -/
def getSearchRadius (urgency : String) : ℕ :=
  if urgency = "emergency" then 20000
  else if urgency = "urgent" then 15000
  else 10000

/-- Words fed to the query join: the triage keywords, then the department when
present, then the literal "hospital", with falsy entries (an absent department
or an empty string) removed, mirroring
`[...keywords, triageResult.department, 'hospital'].filter(Boolean)`
(line 157). -/
def queryWords (keywords : List String) (department : Option String) : List String :=
  ((keywords.map some ++ [department, some "hospital"]).filterMap id).filter
    (fun s => decide (s ≠ ""))

/-- Model of `Array.prototype.join` with separator " " (line 157). -/
def joinSpace : List String → String
  | [] => ""
  | [s] => s
  | s :: rest => s ++ " " ++ joinSpace rest

/-- Composed search query string (line 157). -/
def buildQuery (keywords : List String) (department : Option String) : String :=
  joinSpace (queryWords keywords department)

/-- Query actually placed in the text-search request, mirroring
`query: query || 'hospital near me'` (line 162): the fallback is used exactly
when the composed query is the empty string (falsy). -/
def requestQuery (keywords : List String) (department : Option String) : String :=
  if buildQuery keywords department = "" then "hospital near me"
  else buildQuery keywords department

/-- Candidate facility as returned by the external places search. Optional
fields model properties that may be absent on the JavaScript object; the
geometry is the coordinate (latitude, longitude) when present. -/
structure Place where
  place_id : ℕ
  name : String
  geometry : Option (ℚ × ℚ)
  rating : Option ℚ
  user_ratings_total : Option ℕ
deriving DecidableEq

/-- Model of the JavaScript expression `x || d` for an optional number: the
default is taken when the value is absent or zero, both being falsy. -/
def jsNumOr (x : Option ℚ) (d : ℚ) : ℚ :=
  match x with
  | some v => if v = 0 then d else v
  | none => d

/-- Model of `x || d` for an optional natural number. -/
def jsNatOr (x : Option ℕ) (d : ℕ) : ℕ :=
  match x with
  | some v => if v = 0 then d else v
  | none => d

/-- Ranking score, mirroring `calculateScore` (lines 50-55). -/
def calculateScore (place : Place) (distanceKm : ℚ) : ℚ :=
  let distanceScore := 5 / max distanceKm (1 / 10)
  let ratingScore := jsNumOr place.rating 3
  let popularityBonus : ℚ := if 50 < jsNatOr place.user_ratings_total 0 then 1 else 0
  distanceScore + ratingScore + popularityBonus

/-- Scoring formula exactly as claim C2 states it: the rating summand is the
rating whenever a rating is present, including a rating of zero, and 3 only
when the rating is absent; the popularity bonus is 1 exactly when the review
count is present and exceeds 50. -/
def calculateScoreSpec (rating : Option ℚ) (ratingsTotal : Option ℕ) (distanceKm : ℚ) : ℚ :=
  5 / max distanceKm (1 / 10) +
    (match rating with
     | some r => r
     | none => 3) +
    (if 50 < ratingsTotal.getD 0 then 1 else 0)

/-- Model of `Math.atan2 y x`: the argument of the complex number with real
part x and imaginary part y. -/
noncomputable def atan2 (y x : ℝ) : ℝ := Complex.arg ⟨x, y⟩

/-- Haversine distance in kilometers, mirroring `calculateDistance`
(lines 38-47). -/
noncomputable def calculateDistance (lat1 lng1 lat2 lng2 : ℝ) : ℝ :=
  let R : ℝ := 6371
  let dLat := (lat2 - lat1) * Real.pi / 180
  let dLng := (lng2 - lng1) * Real.pi / 180
  let a := Real.sin (dLat / 2) * Real.sin (dLat / 2) +
    Real.cos (lat1 * Real.pi / 180) * Real.cos (lat2 * Real.pi / 180) *
      Real.sin (dLng / 2) * Real.sin (dLng / 2)
  let c := 2 * atan2 (Real.sqrt a) (Real.sqrt (1 - a))
  R * c

/-- Haversine formula exactly as the specification writes it (section 4.1):
a = sin²(dLat/2) + cos(lat1)·cos(lat2)·sin²(dLng/2) and
distance = 2·R·atan2(√a, √(1-a)) with angles in radians and R = 6371. -/
noncomputable def haversineSpec (lat1 lng1 lat2 lng2 : ℝ) : ℝ :=
  let dLat := (lat2 - lat1) * Real.pi / 180
  let dLng := (lng2 - lng1) * Real.pi / 180
  let a := Real.sin (dLat / 2) ^ 2 +
    Real.cos (lat1 * Real.pi / 180) * Real.cos (lat2 * Real.pi / 180) *
      Real.sin (dLng / 2) ^ 2
  2 * 6371 * atan2 (Real.sqrt a) (Real.sqrt (1 - a))

/-- Phase-1 scored candidate: the place spread together with the computed
distance and score, mirroring `{ ...place, distance, score, isOpen: null }`
(line 200). -/
structure ScoredPlace where
  place : Place
  distance : ℚ
  score : ℚ
deriving DecidableEq

/-- Opening-hours object of a detail response. The field is the result of the
is-open query: none when the object has no callable is-open capability or the
call throws, some b when the call answers b. -/
structure OpeningHours where
  isOpenNow : Option Bool
deriving DecidableEq

/-- Detail response fields requested by the getDetails call (line 209). -/
structure PlaceDetails where
  opening_hours : Option OpeningHours
  formatted_phone_number : Option String
  business_status : Option String
deriving DecidableEq

/-- Enriched candidate produced by the per-place detail callback
(lines 223-230). -/
structure EnrichedPlace where
  base : ScoredPlace
  isOpen : Option Bool
  formatted_phone_number : Option String
  business_status : Option String
deriving DecidableEq

/-- Model of `x || null` for an optional string: an empty string is falsy and
collapses to null, mirroring `details.formatted_phone_number || null`
(line 226). -/
def jsStrOrNone (x : Option String) : Option String :=
  match x with
  | some "" => none
  | x => x

/-- Per-candidate detail callback (lines 210-231): on success the open status
comes only from a structured opening-hours object whose is-open query
answers; on failure (status not OK or no details, modeled as none) the
candidate is passed through with unknown open status. -/
def enrichPlace (p : ScoredPlace) (r : Option PlaceDetails) : EnrichedPlace :=
  match r with
  | some details =>
    let isOpen := match details.opening_hours with
      | some oh => oh.isOpenNow
      | none => none
    { base := p, isOpen := isOpen,
      formatted_phone_number := jsStrOrNone details.formatted_phone_number,
      business_status := details.business_status }
  | none =>
    { base := p, isOpen := none, formatted_phone_number := none, business_status := none }

/-- Phase-1 cap on candidates kept before enrichment (line 203). -/
def preFilterCap (urgency : String) : ℕ :=
  if urgency = "emergency" then 6 else 8

/-- Cap on the final result list (line 255). -/
def resultCap (urgency : String) : ℕ :=
  if urgency = "emergency" then 3 else 5

/-- Phase 1 of `processResults` (lines 193-203): keep geometry-bearing
candidates, annotate each with distance and score, sort by descending score
(the JavaScript comparator `b.score - a.score`; the stable sort is modeled by
mergeSort with the predicate that the comparator is nonpositive) and truncate
to the pre-filter cap. The distance function is a parameter: the source calls
the real-valued haversine, modeled separately over the reals, and every
pipeline property holds for an arbitrary distance assignment. -/
def initialScored (urgency : String) (dist : ℚ → ℚ → ℚ → ℚ → ℚ)
    (userLat userLng : ℚ) (results : List Place) : List ScoredPlace :=
  (((results.filterMap (fun p => p.geometry.map (fun loc => (p, loc)))).map
      (fun pl =>
        let d := dist userLat userLng pl.2.1 pl.2.2
        { place := pl.1, distance := d, score := calculateScore pl.1 d })).mergeSort
    (fun a b => decide (b.score - a.score ≤ 0))).take (preFilterCap urgency)

/-- Phase-2 comparator (lines 240-248), returning a signed rational exactly
like the JavaScript comparator returns a signed number. -/
def finalCompare (urgency : String) (a b : EnrichedPlace) : ℚ :=
  if urgency = "emergency" ∧ a.isOpen = some true ∧ b.isOpen ≠ some true then -1
  else if urgency = "emergency" ∧ b.isOpen = some true ∧ a.isOpen ≠ some true then 1
  else if a.isOpen = some true ∧ b.isOpen = some false then -1
  else if a.isOpen = some false ∧ b.isOpen = some true then 1
  else b.base.score - a.base.score

/-- Filter applied after the phase-2 sort (lines 249-254): for emergency
urgency only candidates not known to be closed are kept; for every other
urgency everything is kept. -/
def keepPlace (urgency : String) (p : EnrichedPlace) : Bool :=
  if urgency = "emergency" then decide (p.isOpen ≠ some false) else true

/-- Phase 2 of `processResults` (lines 239-255): stable sort by the
comparator, filter, truncate to the result cap. -/
def finalize (urgency : String) (l : List EnrichedPlace) : List EnrichedPlace :=
  ((l.mergeSort (fun a b => decide (finalCompare urgency a b ≤ 0))).filter
    (keepPlace urgency)).take (resultCap urgency)

/-- Whole ranking pipeline of `processResults` (lines 185-257) producing the
final places list: phase 1, per-candidate enrichment joined over all
candidates (the Promise.all barrier), phase 2. The external detail service is
modeled as a function from the queried place to an optional detail
response. -/
def processResults (urgency : String) (dist : ℚ → ℚ → ℚ → ℚ → ℚ)
    (userLat userLng : ℚ) (details : ScoredPlace → Option PlaceDetails)
    (results : List Place) : List EnrichedPlace :=
  finalize urgency
    ((initialScored urgency dist userLat userLng results).map
      (fun p => enrichPlace p (details p)))

/-- Outcome of the search flow (lines 165-183). -/
inductive SearchOutcome where
  | results (places : List EnrichedPlace)
  | noHospitalsError
deriving DecidableEq

/-- Search flow over the two strategies (lines 165-183): the processed text
search result when the text search succeeds, otherwise the processed nearby
search result, otherwise the "no hospitals found" error. A none argument
models a failed strategy (status not OK or a null result list). -/
def searchFlow (urgency : String) (dist : ℚ → ℚ → ℚ → ℚ → ℚ)
    (userLat userLng : ℚ) (details : ScoredPlace → Option PlaceDetails)
    (textResults nearbyResults : Option (List Place)) : SearchOutcome :=
  match textResults with
  | some res => .results (processResults urgency dist userLat userLng details res)
  | none =>
    match nearbyResults with
    | some res => .results (processResults urgency dist userLat userLng details res)
    | none => .noHospitalsError

/-- Single step of a route leg as used by the route-info extraction. -/
structure RouteStep where
  instructions : String
  distanceText : String
deriving DecidableEq

/-- Leg of a returned route. -/
structure RouteLeg where
  distanceText : String
  durationText : String
  steps : List RouteStep
deriving DecidableEq

/-- Route result returned by the external directions service. -/
structure RouteResult where
  routes : List (List RouteLeg)
deriving DecidableEq

/-- Route info extracted on success (lines 330-337). -/
structure RouteInfo where
  distance : String
  duration : String
  steps : List (String × String)
deriving DecidableEq

/-- Directions-related component state touched by the route callback: the
rendered directions, the extracted route info, the selected place and the
screen error state. -/
structure DirState where
  directions : Option RouteResult
  routeInfo : Option RouteInfo
  selectedPlace : Option ℕ
  error : Option String
deriving DecidableEq

/-- Extraction of the first leg of the first route (lines 328-337). A
successful response from the directions service always carries at least one
route with one leg. -/
def extractRouteInfo (r : RouteResult) : Option RouteInfo :=
  (r.routes.head?.bind List.head?).map (fun leg =>
    { distance := leg.distanceText, duration := leg.durationText,
      steps := leg.steps.map (fun st => (st.instructions, st.distanceText)) })

/-- Callback of `directionsService.route` (lines 321-339): on OK status the
directions state is replaced, otherwise nothing at all happens. A none result
models a non-OK status. -/
def routeCallback (s : DirState) (placeId : ℕ) (result : Option RouteResult) : DirState :=
  match result with
  | some r =>
    { directions := some r, routeInfo := extractRouteInfo r,
      selectedPlace := some placeId, error := s.error }
  | none => s

/-! Concrete sample data used by witnesses and counterexamples. -/

/-- Sample place carrying a rating of exactly zero. -/
def zeroRatedPlace : Place :=
  { place_id := 1, name := "Zero Rated Clinic", geometry := some (0, 0),
    rating := some 0, user_ratings_total := none }

/-- Builder for enriched candidates with a given identifier, score and open
status. -/
def mkEnriched (pid : ℕ) (score : ℚ) (status : Option Bool) : EnrichedPlace :=
  { base :=
      { place :=
          { place_id := pid, name := "Facility", geometry := some (0, 0),
            rating := none, user_ratings_total := none },
        distance := 1, score := score },
    isOpen := status, formatted_phone_number := none, business_status := none }

/-- Known-open candidate with score 0. -/
def openLow : EnrichedPlace := mkEnriched 1 0 (some true)

/-- Unknown-status candidate with score 5. -/
def unknownMid : EnrichedPlace := mkEnriched 2 5 none

/-- Known-closed candidate with score 10. -/
def closedHigh : EnrichedPlace := mkEnriched 3 10 (some false)

/-- Unknown-status candidate with score 2. -/
def unknownE : EnrichedPlace := mkEnriched 7 2 none

/-- Sample scored place used by the detail-lookup witnesses. -/
def sampleScored : ScoredPlace :=
  { place := zeroRatedPlace, distance := 1, score := 8 }

/-- Detail response without any opening-hours object. -/
def detailsNoHours : PlaceDetails :=
  { opening_hours := none, formatted_phone_number := some "12345",
    business_status := some "OPERATIONAL" }

/-- Detail response whose opening-hours object cannot answer the is-open
query. -/
def detailsBadHours : PlaceDetails :=
  { opening_hours := some { isOpenNow := none }, formatted_phone_number := none,
    business_status := none }

/-- Sample geometry-bearing place used by the pipeline witnesses. -/
def samplePlace : Place :=
  { place_id := 42, name := "General Hospital", geometry := some (1, 2),
    rating := some 4, user_ratings_total := some 100 }

/-- Constant distance assignment used by the pipeline witnesses. -/
def constDist : ℚ → ℚ → ℚ → ℚ → ℚ := fun _ _ _ _ => 1

/-- Scored form of the sample place under the constant distance. -/
def sampleScored2 : ScoredPlace :=
  { place := samplePlace, distance := 1, score := calculateScore samplePlace 1 }

/-- Enriched form of the sample place after a failed detail lookup. -/
def sampleEnriched : EnrichedPlace := enrichPlace sampleScored2 none

/-! Helper lemmas shared by the claim theorems. -/

/-- Helper: the argument of the complex number 1 is zero, so atan2 0 1 = 0. -/
theorem atan2_zero_one : atan2 0 1 = 0 := by
  unfold atan2
  have h : (⟨1, 0⟩ : ℂ) = 1 := by
    apply Complex.ext <;> simp
  rw [h, Complex.arg_one]

/-- Helper: the JavaScript default of 0 on an optional natural number is the
same as getD 0. -/
theorem jsNatOr_zero (x : Option ℕ) : jsNatOr x 0 = x.getD 0 := by
  rcases x with _ | v
  · rfl
  · show (if v = 0 then 0 else v) = v
    split <;> omega

/-- Helper: joining a non-empty list of non-empty words with spaces gives a
non-empty string. -/
theorem joinSpace_ne_empty (l : List String) (hne : l ≠ [])
    (hall : ∀ s ∈ l, s ≠ "") : joinSpace l ≠ "" := by
  match l, hne with
  | [s], _ => exact hall s (by simp)
  | s :: r :: t, _ =>
    intro h
    have hlen := congrArg String.length h
    have hsp : (" " : String).length = 1 := rfl
    have hem : ("" : String).length = 0 := rfl
    rw [show joinSpace (s :: r :: t) = s ++ " " ++ joinSpace (r :: t) from rfl] at hlen
    simp only [String.length_append, hsp, hem] at hlen
    omega

/-! Claim theorems. -/

/-- C4: the search policy maps urgency emergency to a 20000 m radius, urgent
to 15000 m and anything else to 10000 m, and the query is composed by
space-joining the non-empty keywords, then the department, then the literal
"hospital"; in particular for urgency urgent, department Cardiology and an
empty keyword list the radius is 15000 m and the query is exactly
"Cardiology hospital". -/
theorem searchPolicy_radius_and_query :
    getSearchRadius "emergency" = 20000 ∧
    getSearchRadius "urgent" = 15000 ∧
    (∀ u : String, u ≠ "emergency" → u ≠ "urgent" → getSearchRadius u = 10000) ∧
    (∀ (ks : List String) (dep : String), (∀ s ∈ ks, s ≠ "") → dep ≠ "" →
      queryWords ks (some dep) = ks ++ [dep, "hospital"]) ∧
    requestQuery [] (some "Cardiology") = "Cardiology hospital" := by
  refine ⟨rfl, rfl, ?_, ?_, by decide⟩
  · intro u h1 h2
    simp [getSearchRadius, h1, h2]
  · intro ks dep hks hdep
    unfold queryWords
    have h1 : ((ks.map some ++ [some dep, some "hospital"]).filterMap id)
        = ks ++ [dep, "hospital"] := by simp
    rw [h1]
    apply List.filter_eq_self.mpr
    intro a ha
    rw [decide_eq_true_eq]
    rcases List.mem_append.1 ha with h | h
    · exact hks a h
    · rcases List.mem_cons.1 h with h | h
      · subst h; exact hdep
      · rcases List.mem_cons.1 h with h | h
        · subst h; decide
        · exact absurd h (List.not_mem_nil a)

/-- Witness for the search-policy theorem at concrete inputs. -/
theorem searchPolicy_radius_and_query_witness :
    getSearchRadius "routine" = 10000 ∧
    queryWords ["chest", "pain"] (some "Cardiology")
      = ["chest", "pain", "Cardiology", "hospital"] :=
  ⟨searchPolicy_radius_and_query.2.2.1 "routine" (by decide) (by decide),
   searchPolicy_radius_and_query.2.2.2.1 ["chest", "pain"] "Cardiology"
     (by decide) (by decide)⟩

/-- C9: for every keyword list and every optional department the composed
query word list contains the literal "hospital", the composed query string is
non-empty, and therefore the "hospital near me" fallback branch is never
taken: the request query is always the composed query. -/
theorem query_contains_hospital (ks : List String) (dep : Option String) :
    "hospital" ∈ queryWords ks dep ∧
    buildQuery ks dep ≠ "" ∧
    requestQuery ks dep = buildQuery ks dep := by
  have hmem : "hospital" ∈ queryWords ks dep := by
    unfold queryWords
    rw [List.mem_filter]
    refine ⟨List.mem_filterMap.mpr ⟨some "hospital", ?_, rfl⟩, by decide⟩
    simp
  have hne : buildQuery ks dep ≠ "" := by
    unfold buildQuery
    apply joinSpace_ne_empty
    · exact List.ne_nil_of_mem hmem
    · intro s hs
      have hs' : s ∈ ((ks.map some ++ [dep, some "hospital"]).filterMap id).filter
          (fun s => decide (s ≠ "")) := hs
      have := (List.mem_filter.1 hs').2
      simpa [decide_eq_true_eq] using this
  refine ⟨hmem, hne, ?_⟩
  unfold requestQuery
  rw [if_neg hne]

/-- C7: a failed route request (non-OK status, modeled as a none result)
produces no route info and leaves the whole directions state — rendered
directions, route info, selected place and screen error — exactly
unchanged. -/
theorem routeFailure_state_unchanged (s : DirState) (placeId : ℕ) :
    routeCallback s placeId none = s ∧
    (routeCallback s placeId none).routeInfo = s.routeInfo ∧
    (routeCallback s placeId none).error = s.error :=
  ⟨rfl, rfl, rfl⟩

/-- C8: running the ranking pipeline on an empty candidate list yields an
empty final list inside a results outcome (never the error), and the
no-hospitals error occurs exactly when both search strategies return no
result set at all. -/
theorem empty_candidates_empty_result :
    (∀ u dist la ln det, processResults u dist la ln det [] = []) ∧
    (∀ u dist la ln det r2, searchFlow u dist la ln det (some []) r2 = .results []) ∧
    (∀ u dist la ln det r1 r2,
      searchFlow u dist la ln det r1 r2 = .noHospitalsError ↔ r1 = none ∧ r2 = none) := by
  have hp : ∀ u dist la ln det, processResults u dist la ln det ([] : List Place) = [] := by
    intro u dist la ln det
    simp [processResults, initialScored, finalize]
  refine ⟨hp, ?_, ?_⟩
  · intro u dist la ln det r2
    simp [searchFlow, hp]
  · intro u dist la ln det r1 r2
    cases r1 <;> cases r2 <;> simp [searchFlow]

/-- Witness: both strategies failing yields the no-hospitals error. -/
theorem empty_candidates_empty_result_witness :
    searchFlow "routine" constDist 0 0 (fun _ => none) none none
      = .noHospitalsError :=
  (empty_candidates_empty_result.2.2 "routine" constDist 0 0 (fun _ => none)
    none none).mpr ⟨rfl, rfl⟩

/-- C6: a failed detail lookup, a detail response without structured opening
hours, and an opening-hours object that cannot answer the is-open query all
leave the open status unknown — never a guessed boolean — and whenever a
search strategy returned a candidate list the flow yields a results outcome
for every detail assignment, so per-candidate failures never fail the overall
search. -/
theorem detail_failure_unknown_status :
    (∀ p, (enrichPlace p none).isOpen = none) ∧
    (∀ p d, d.opening_hours = none → (enrichPlace p (some d)).isOpen = none) ∧
    (∀ p d oh, d.opening_hours = some oh → oh.isOpenNow = none →
      (enrichPlace p (some d)).isOpen = none) ∧
    (∀ u dist la ln det res r2,
      searchFlow u dist la ln det (some res) r2
        = .results (processResults u dist la ln det res)) := by
  refine ⟨fun p => rfl, ?_, ?_, fun u dist la ln det res r2 => rfl⟩
  · intro p d h
    simp [enrichPlace, h]
  · intro p d oh h1 h2
    simp [enrichPlace, h1, h2]

/-- Witness: concrete detail responses without usable hours data give unknown
status. -/
theorem detail_failure_unknown_status_witness :
    (enrichPlace sampleScored (some detailsNoHours)).isOpen = none ∧
    (enrichPlace sampleScored (some detailsBadHours)).isOpen = none :=
  ⟨detail_failure_unknown_status.2.1 sampleScored detailsNoHours rfl,
   detail_failure_unknown_status.2.2.1 sampleScored detailsBadHours
     { isOpenNow := none } rfl rfl⟩

/-- C2 counterexample: for a candidate whose rating is present and equal to
zero, at distance 1, the code evaluates the rating summand through
JavaScript falsiness, so the score is 5 + 3 + 0 = 8, while the claimed
formula — which uses a present rating of zero as 0 — gives 5 + 0 + 0 = 5. -/
theorem calculateScore_zero_rating_cex :
    calculateScore zeroRatedPlace 1 = 8 ∧
    calculateScoreSpec zeroRatedPlace.rating zeroRatedPlace.user_ratings_total 1 = 5 ∧
    calculateScore zeroRatedPlace 1 ≠
      calculateScoreSpec zeroRatedPlace.rating zeroRatedPlace.user_ratings_total 1 := by
  norm_num [calculateScore, calculateScoreSpec, zeroRatedPlace, jsNumOr, jsNatOr]

/-- C2 amended: the score is 5 / max(d, 0.1) + r + b, where r is the rating
when one is present and nonzero and 3 when the rating is absent or equal to
zero (zero is falsy in the source), and b is 1 exactly when the review count
is present and exceeds 50 and 0 otherwise; consequently a present zero rating
scores exactly like an absent rating. -/
theorem calculateScore_formula (p : Place) (d : ℚ) :
    calculateScore p d =
      5 / max d (1 / 10) +
        (match p.rating with
         | some r => if r = 0 then 3 else r
         | none => 3) +
        (if 50 < p.user_ratings_total.getD 0 then 1 else 0) ∧
    (p.rating = some 0 → calculateScore p d = calculateScore { p with rating := none } d) := by
  constructor
  · unfold calculateScore
    rw [jsNatOr_zero]
    rcases hr : p.rating with _ | r <;> simp [jsNumOr, hr]
  · intro h0
    unfold calculateScore
    simp [jsNumOr, h0]

/-- Witness: the amended scoring theorem applied to the zero-rated sample. -/
theorem calculateScore_formula_witness :
    calculateScore zeroRatedPlace 1 = calculateScore { zeroRatedPlace with rating := none } 1 :=
  (calculateScore_formula zeroRatedPlace 1).2 rfl

/-- C1: for every urgency and every enriched candidate list the final list
never exceeds the urgency-dependent cap (3 for emergency, 5 otherwise); for
emergency urgency no candidate whose open status is definitively false
appears in the final list, while the emergency filter keeps every candidate
of unknown open status. -/
theorem finalize_cap_and_closed_filter (u : String) (l : List EnrichedPlace) :
    (finalize u l).length ≤ (if u = "emergency" then 3 else 5) ∧
    (u = "emergency" → ∀ p ∈ finalize u l, p.isOpen ≠ some false) ∧
    (∀ p : EnrichedPlace, p.isOpen = none → keepPlace u p = true) := by
  refine ⟨List.length_take_le _ _, ?_, ?_⟩
  · intro hu p hp
    have hp' : p ∈ ((l.mergeSort (fun a b => decide (finalCompare u a b ≤ 0))).filter
        (keepPlace u)) := List.take_subset _ _ hp
    have hk : keepPlace u p = true := (List.mem_filter.1 hp').2
    unfold keepPlace at hk
    rw [if_pos hu] at hk
    exact of_decide_eq_true hk
  · intro p hp
    unfold keepPlace
    split
    · simp [hp]
    · rfl

/-- Witness: a singleton emergency pipeline respects the cap and an
unknown-status candidate passes the emergency filter. -/
theorem finalize_cap_and_closed_filter_witness :
    (finalize "emergency" [unknownE]).length ≤ 3 ∧
    unknownE.isOpen ≠ some false ∧
    keepPlace "emergency" unknownE = true := by
  have h := finalize_cap_and_closed_filter "emergency" [unknownE]
  have hfin : finalize "emergency" [unknownE] = [unknownE] := by
    unfold finalize
    rw [List.mergeSort_singleton]
    simp [keepPlace, unknownE, mkEnriched, resultCap]
  refine ⟨?_, ?_, h.2.2 unknownE rfl⟩
  · simpa using h.1
  · exact h.2.1 rfl unknownE (by rw [hfin]; exact List.mem_singleton.mpr rfl)

/-- C10: enrichment preserves the whole phase-1 record — identifier, name,
coordinate, distance and score — whether or not the detail lookup succeeds,
and every candidate in the final output carries exactly the base of some
phase-1 candidate. -/
theorem enrichment_preserves_base :
    (∀ p r, (enrichPlace p r).base = p) ∧
    (∀ u dist la ln det res, ∀ e ∈ processResults u dist la ln det res,
      e.base ∈ initialScored u dist la ln res) := by
  have hbase : ∀ p r, (enrichPlace p r).base = p := by
    intro p r
    rcases r with _ | d <;> rfl
  refine ⟨hbase, ?_⟩
  intro u dist la ln det res e he
  have h1 : e ∈ ((initialScored u dist la ln res).map
      (fun p => enrichPlace p (det p))).mergeSort
      (fun a b => decide (finalCompare u a b ≤ 0)) := by
    have h0 := List.take_subset (resultCap u) _ he
    exact (List.mem_filter.1 h0).1
  have h2 : e ∈ (initialScored u dist la ln res).map (fun p => enrichPlace p (det p)) :=
    List.mem_mergeSort.1 h1
  rcases List.mem_map.1 h2 with ⟨p, hp, hep⟩
  rw [← hep, hbase]
  exact hp

/-- Witness: the sample pipeline output keeps the phase-1 base of the sample
place. -/
theorem enrichment_preserves_base_witness :
    sampleEnriched.base = sampleScored2 ∧
    sampleEnriched.base ∈ initialScored "routine" constDist 0 0 [samplePlace] := by
  have hinit : initialScored "routine" constDist 0 0 [samplePlace] = [sampleScored2] := by
    unfold initialScored
    simp [samplePlace, constDist, sampleScored2, preFilterCap]
  refine ⟨enrichment_preserves_base.1 sampleScored2 none, ?_⟩
  have hmem : sampleEnriched ∈ processResults "routine" constDist 0 0
      (fun _ => none) [samplePlace] := by
    unfold processResults finalize
    rw [hinit]
    simp only [List.map_cons, List.map_nil, List.mergeSort_singleton]
    simp [keepPlace, resultCap, sampleEnriched]
  exact enrichment_preserves_base.2 "routine" constDist 0 0 (fun _ => none)
    [samplePlace] sampleEnriched hmem

/-- Helper: for emergency urgency the comparator collapses to the
lexicographic comparison on known-open status first and descending score
second. -/
theorem finalCompare_emergency (a b : EnrichedPlace) :
    finalCompare "emergency" a b =
      if a.isOpen = some true ∧ b.isOpen ≠ some true then -1
      else if b.isOpen = some true ∧ a.isOpen ≠ some true then 1
      else b.base.score - a.base.score := by
  unfold finalCompare
  rcases ha : a.isOpen with _ | (_ | _) <;> rcases hb : b.isOpen with _ | (_ | _) <;>
    simp [ha, hb]

/-- C3 counterexample: for non-emergency urgency the comparison relation is
not transitive, hence not a total order: the known-closed candidate of score
10 precedes the unknown-status candidate of score 5, which precedes the
known-open candidate of score 0, yet the known-closed candidate does not
precede the known-open one. -/
theorem finalCompare_not_transitive_cex :
    finalCompare "routine" closedHigh unknownMid ≤ 0 ∧
    finalCompare "routine" unknownMid openLow ≤ 0 ∧
    ¬ finalCompare "routine" closedHigh openLow ≤ 0 := by
  refine ⟨?_, ?_, ?_⟩
  · simp [finalCompare, closedHigh, unknownMid, mkEnriched]
    norm_num
  · simp [finalCompare, unknownMid, openLow, mkEnriched]
  · simp [finalCompare, closedHigh, openLow, mkEnriched]

/-- C3 amended: the comparator is antisymmetric in sign, so any two enriched
candidates are comparable; for emergency urgency the induced relation is
transitive (a total preorder); and for every urgency a candidate known open
strictly precedes a candidate known closed when they are compared directly —
in particular open-before-closed holds pairwise at equal scores. For
non-emergency urgency the relation is not transitive, so it is not a total
order on enriched candidates. -/
theorem finalCompare_order_facts :
    (∀ (u : String) (a b : EnrichedPlace), finalCompare u b a = -finalCompare u a b) ∧
    (∀ (a b c : EnrichedPlace), finalCompare "emergency" a b ≤ 0 →
      finalCompare "emergency" b c ≤ 0 → finalCompare "emergency" a c ≤ 0) ∧
    (∀ (u : String) (a b : EnrichedPlace), a.isOpen = some true →
      b.isOpen = some false → finalCompare u a b < 0) := by
  refine ⟨?_, ?_, ?_⟩
  · intro u a b
    unfold finalCompare
    by_cases hu : u = "emergency" <;>
      rcases ha : a.isOpen with _ | (_ | _) <;>
      rcases hb : b.isOpen with _ | (_ | _) <;>
      simp [hu, ha, hb]
  · intro a b c hab hbc
    rw [finalCompare_emergency] at hab hbc ⊢
    by_cases pa : a.isOpen = some true <;> by_cases pb : b.isOpen = some true <;>
      by_cases pc : c.isOpen = some true <;>
      simp [pa, pb, pc] at hab hbc ⊢ <;> linarith
  · intro u a b ha hb
    unfold finalCompare
    by_cases hu : u = "emergency" <;> simp [hu, ha, hb]

/-- Witness: the order facts applied at concrete candidates. -/
theorem finalCompare_order_facts_witness :
    finalCompare "routine" unknownMid openLow = -finalCompare "routine" openLow unknownMid ∧
    finalCompare "emergency" openLow unknownMid ≤ 0 ∧
    finalCompare "routine" openLow closedHigh < 0 := by
  refine ⟨finalCompare_order_facts.1 "routine" openLow unknownMid,
    finalCompare_order_facts.2.1 openLow openLow unknownMid ?_ ?_,
    finalCompare_order_facts.2.2 "routine" openLow closedHigh rfl rfl⟩
  · simp [finalCompare, openLow, mkEnriched]
  · simp [finalCompare, openLow, unknownMid, mkEnriched]

/-- C5: the distance function equals the specification haversine formula with
Earth radius 6371 km, is symmetric in its two coordinate arguments, and is
zero on identical coordinates. -/
theorem calculateDistance_props :
    (∀ lat1 lng1 lat2 lng2 : ℝ,
      calculateDistance lat1 lng1 lat2 lng2 = haversineSpec lat1 lng1 lat2 lng2) ∧
    (∀ lat1 lng1 lat2 lng2 : ℝ,
      calculateDistance lat1 lng1 lat2 lng2 = calculateDistance lat2 lng2 lat1 lng1) ∧
    (∀ lat lng : ℝ, calculateDistance lat lng lat lng = 0) := by
  refine ⟨?_, ?_, ?_⟩
  · intro lat1 lng1 lat2 lng2
    simp only [calculateDistance, haversineSpec]
    generalize Real.sin ((lat2 - lat1) * Real.pi / 180 / 2) = s1
    generalize Real.sin ((lng2 - lng1) * Real.pi / 180 / 2) = s2
    generalize Real.cos (lat1 * Real.pi / 180) = c1
    generalize Real.cos (lat2 * Real.pi / 180) = c2
    rw [show s1 * s1 + c1 * c2 * s2 * s2 = s1 ^ 2 + c1 * c2 * s2 ^ 2 by ring]
    ring
  · intro lat1 lng1 lat2 lng2
    simp only [calculateDistance]
    rw [show (lat1 - lat2) * Real.pi / 180 / 2 = -((lat2 - lat1) * Real.pi / 180 / 2) by ring,
      show (lng1 - lng2) * Real.pi / 180 / 2 = -((lng2 - lng1) * Real.pi / 180 / 2) by ring,
      Real.sin_neg, Real.sin_neg]
    ring_nf
  · intro lat lng
    simp only [calculateDistance, sub_self, zero_mul, zero_div, Real.sin_zero,
      mul_zero, zero_add, add_zero, Real.sqrt_zero, sub_zero, Real.sqrt_one]
    rw [atan2_zero_one]
    ring

end TriageRouter
